import Mathlib

/-!
Shallow embedding of the annotation interaction engine of
`android_ui_collector` (`src/gui.py`, class `MainWindow`), together with
proofs and refutations of the specification claims about it.

Coordinates are modelled as exact rationals: the source stores Python
floats rounded to 6 decimal places with `round(x, 6)`, which rounds to
the nearest multiple of `10^-6`, ties to even.  `int(...)` truncation
toward zero is modelled by `pyInt`.
-/

namespace UiCollector

/-- Round a rational to the nearest integer, ties to the even integer
(the behaviour of Python's builtin `round` on exact values). -/
def roundHalfEven (q : ℚ) : ℤ :=
  if Int.fract q < 1 / 2 then ⌊q⌋
  else if 1 / 2 < Int.fract q then ⌊q⌋ + 1
  else if ⌊q⌋ % 2 = 0 then ⌊q⌋ else ⌊q⌋ + 1

/-- The model of Python's `round(x, 6)`: round to 6 decimal places. -/
def round6 (q : ℚ) : ℚ :=
  (roundHalfEven (q * 1000000) : ℚ) / 1000000

/-- The model of Python's `str.strip()`: drop whitespace from both ends. -/
def pyStrip (s : String) : String :=
  ⟨((s.data.dropWhile Char.isWhitespace).reverse.dropWhile Char.isWhitespace).reverse⟩

/-- The model of Python's `int(x)`: truncation toward zero. -/
def pyInt (q : ℚ) : ℤ :=
  if q < 0 then -⌊-q⌋ else ⌊q⌋

theorem abs_sub_roundHalfEven (q : ℚ) : |q - roundHalfEven q| ≤ 1 / 2 := by
  have hfr : q - ⌊q⌋ = Int.fract q := Int.self_sub_floor q
  have h0 : 0 ≤ Int.fract q := Int.fract_nonneg q
  have h1 : Int.fract q < 1 := Int.fract_lt_one q
  unfold roundHalfEven
  split
  · rw [abs_of_nonneg (by linarith)]
    linarith
  · rename_i hlt
    push_neg at hlt
    split
    · push_cast
      rw [abs_of_nonpos (by linarith)]
      linarith
    · rename_i hgt
      push_neg at hgt
      have heq : Int.fract q = 1 / 2 := le_antisymm hgt hlt
      split
      · rw [abs_of_nonneg (by linarith)]
        linarith
      · push_cast
        rw [abs_of_nonpos (by linarith)]
        linarith

theorem roundHalfEven_nonneg {q : ℚ} (hq : 0 ≤ q) : 0 ≤ roundHalfEven q := by
  have hfl : (0 : ℤ) ≤ ⌊q⌋ := Int.floor_nonneg.2 hq
  unfold roundHalfEven
  split
  · exact hfl
  · split
    · omega
    · split
      · exact hfl
      · omega

theorem roundHalfEven_mono {a b : ℚ} (hab : a ≤ b) :
    roundHalfEven a ≤ roundHalfEven b := by
  by_contra hcon
  push_neg at hcon
  have hba : roundHalfEven b + 1 ≤ roundHalfEven a := hcon
  have ha := abs_sub_roundHalfEven a
  have hb := abs_sub_roundHalfEven b
  rw [abs_le] at ha hb
  have hcast : (roundHalfEven b : ℚ) + 1 ≤ (roundHalfEven a : ℚ) := by
    exact_mod_cast hba
  have hab2 : b ≤ a := by linarith
  have heq : a = b := le_antisymm hab hab2
  subst heq
  omega

theorem abs_sub_round6 (q : ℚ) : |round6 q - q| ≤ 1 / 2000000 := by
  have h := abs_sub_roundHalfEven (q * 1000000)
  unfold round6
  have hrw : (roundHalfEven (q * 1000000) : ℚ) / 1000000 - q
      = -((q * 1000000 - roundHalfEven (q * 1000000)) / 1000000) := by
    ring
  rw [hrw, abs_neg, abs_div]
  rw [show |(1000000 : ℚ)| = 1000000 by norm_num]
  rw [div_le_iff₀ (by norm_num)]
  linarith

theorem round6_nonneg {q : ℚ} (hq : 0 ≤ q) : 0 ≤ round6 q := by
  unfold round6
  have h : (0 : ℤ) ≤ roundHalfEven (q * 1000000) :=
    roundHalfEven_nonneg (by positivity)
  have h2 : (0 : ℚ) ≤ (roundHalfEven (q * 1000000) : ℚ) := by exact_mod_cast h
  positivity

theorem round6_mono {a b : ℚ} (hab : a ≤ b) : round6 a ≤ round6 b := by
  unfold round6
  have h : roundHalfEven (a * 1000000) ≤ roundHalfEven (b * 1000000) :=
    roundHalfEven_mono (by linarith)
  have h2 : (roundHalfEven (a * 1000000) : ℚ) ≤ roundHalfEven (b * 1000000) := by
    exact_mod_cast h
  linarith

theorem pyInt_of_nonneg {q : ℚ} (hq : 0 ≤ q) : pyInt q = ⌊q⌋ := by
  unfold pyInt
  rw [if_neg (not_lt.2 hq)]

/-! ## Data model (`MainWindow` state, `src/gui.py`) -/

/-- The annotation stages `_STAGE_RECTANGLE = 0` and `_STAGE_POINT = 1`. -/
inductive Stage where
  | rectangle
  | point
  deriving Repr, DecidableEq

/-- A rectangle annotation entry as built in `handle_save_annotation`
(`rect_entry`). -/
structure RectEntry where
  screenshot : String
  timestamp : ℕ
  points : List (ℚ × ℚ)
  description : String
  deriving Repr, DecidableEq

/-- A point annotation entry as built in `handle_save_annotation`
(`point_entry`). -/
structure PointEntry where
  screenshot : String
  timestamp : ℕ
  point : ℚ × ℚ
  description : String
  deriving Repr, DecidableEq

/-- Externally visible side effects of the save handler: writing the
screenshot bytes, copying the screenshot into a sub-folder, appending an
entry to one of the two JSON logs, and the two message boxes the handler
can pop up. -/
inductive Effect where
  | writeImage (path : String) (bytes : List ℕ)
  | copyImage (src : String) (dest : String)
  | appendRect (path : String) (entry : RectEntry)
  | appendPoint (path : String) (entry : PointEntry)
  | warn (msg : String)
  | critical (msg : String)
  deriving Repr, DecidableEq

def IMAGES_DIR : String := "~/Desktop/Images"

def RECTANGLES_DIR : String := IMAGES_DIR ++ "/rectangles"

def POINTS_DIR : String := IMAGES_DIR ++ "/points"

def RECT_ANNOTATIONS_PATH : String := RECTANGLES_DIR ++ "/annotations.json"

def POINT_ANNOTATIONS_PATH : String := POINTS_DIR ++ "/annotations.json"

/-- The mutable annotation-related state of `MainWindow`.

`currentScreenshotPath` stores the assigned screenshot filename (the
source stores the full `Path`; records use its `.name`, and the full
path is recovered as `IMAGES_DIR ++ "/" ++ filename`).  `baseDims` are
the pixel dimensions of `base_pixmap`; the displayed label pixmap is
always a copy of `base_pixmap` with the overlay painted on it, so it has
the same dimensions.  `descInput` is the text of the description box
widget. -/
structure AppState where
  stage : Stage
  rectanglePoints : List (ℚ × ℚ)
  pendingPoints : List (ℚ × ℚ)
  centerPoint : Option (ℚ × ℚ)
  undoStack : List (List (ℚ × ℚ))
  redoStack : List (List (ℚ × ℚ))
  dragIndex : Option ℕ
  descInput : String
  lastDescription : String
  lastSavedScreenshot : Option String
  currentScreenshotPath : Option String
  currentImgBytes : Option (List ℕ)
  baseDims : Option (ℕ × ℕ)
  deriving Repr, DecidableEq

/-! ## Geometry helpers -/

/-- Normalization of one pixel coordinate as done in `handle_image_click`
and `handle_drag_move`: divide by the displayed dimension, then
`round(·, 6)`. -/
def normCoord (x : ℤ) (w : ℕ) : ℚ :=
  round6 ((x : ℚ) / (w : ℚ))

/-- Denormalization of one coordinate as done in `_redraw_preview` and
`_get_nearest_point_index`: `int(x_norm * width)`. -/
def denormCoord (q : ℚ) (w : ℕ) : ℤ :=
  pyInt (q * (w : ℚ))

/-- Normalization of a pixel point (per axis). -/
def normalizePt (p : ℤ × ℤ) (w h : ℕ) : ℚ × ℚ :=
  (normCoord p.1 w, normCoord p.2 h)

/-- Denormalization of a normalized point (per axis). -/
def denormalizePt (q : ℚ × ℚ) (w h : ℕ) : ℤ × ℤ :=
  (denormCoord q.1 w, denormCoord q.2 h)

/-- `_get_nearest_point_index`: first pending point whose denormalized
pixel position is within 8 pixels of `pos` on both axes independently. -/
def getNearestPointIndex (pts : List (ℚ × ℚ)) (pos : ℤ × ℤ) (w h : ℕ) :
    Option ℕ :=
  pts.findIdx? fun p =>
    decide (|denormCoord p.1 w - pos.1| ≤ 8 ∧ |denormCoord p.2 h - pos.2| ≤ 8)

/-- The geometric centre computed in `handle_next_stage`: per-axis
arithmetic mean of the four points, each rounded to 6 decimals. -/
def centroid4 (pts : List (ℚ × ℚ)) : ℚ × ℚ :=
  (round6 ((pts.map Prod.fst).sum / 4), round6 ((pts.map Prod.snd).sum / 4))

/-! ## Handlers -/

/-- `_record_state_for_undo`: push a copy of `pending_points` on the undo
stack; if the depth then exceeds 20, `pop(0)` the oldest (bottom) entry. -/
def recordStateForUndo (s : AppState) : AppState :=
  if s.stage ≠ Stage.rectangle then s
  else
    let u := s.undoStack ++ [s.pendingPoints]
    { s with undoStack := if u.length > 20 then u.drop 1 else u }

/-- `handle_undo`: pop the undo stack (no-op if empty or wrong stage),
pushing the current points on the redo stack first. -/
def handleUndo (s : AppState) : AppState :=
  if s.stage ≠ Stage.rectangle then s
  else
    match s.undoStack.getLast? with
    | none => s
    | some prev =>
      { s with
        redoStack := s.redoStack ++ [s.pendingPoints]
        pendingPoints := prev
        undoStack := s.undoStack.dropLast }

/-- `handle_redo`: pop the redo stack (no-op if empty or wrong stage),
pushing the current points on the undo stack first. -/
def handleRedo (s : AppState) : AppState :=
  if s.stage ≠ Stage.rectangle then s
  else
    match s.redoStack.getLast? with
    | none => s
    | some nxt =>
      { s with
        undoStack := s.undoStack ++ [s.pendingPoints]
        pendingPoints := nxt
        redoStack := s.redoStack.dropLast }

/-- `handle_next_stage`: finalize the rectangle and advance to the point
stage.  Guard: rectangle stage with exactly 4 pending points, otherwise
a silent no-op. -/
def handleNextStage (s : AppState) : AppState :=
  if s.stage ≠ Stage.rectangle ∨ s.pendingPoints.length ≠ 4 then s
  else
    { s with
      rectanglePoints := s.pendingPoints
      centerPoint := some (centroid4 s.pendingPoints)
      pendingPoints := []
      stage := Stage.point }

/-- `handle_back_stage`: return to rectangle editing, restoring
`pending_points` from `rectangle_points` and discarding the centre. -/
def handleBackStage (s : AppState) : AppState :=
  if s.stage ≠ Stage.point then s
  else
    { s with
      pendingPoints := s.rectanglePoints
      stage := Stage.rectangle
      centerPoint := none }

/-- `handle_image_click` (fired on mouse press): bounds-check the click,
then either start a drag (4 points and a hit), append a new normalized
corner (fewer than 4 points), or reposition the centre point. -/
def handleImageClick (s : AppState) (pos : ℤ × ℤ) : AppState :=
  match s.baseDims with
  | none => s
  | some (w, h) =>
    if ¬(0 ≤ pos.1 ∧ pos.1 < (w : ℤ) ∧ 0 ≤ pos.2 ∧ pos.2 < (h : ℤ)) then s
    else
      let xn := normCoord pos.1 w
      let yn := normCoord pos.2 h
      match s.stage with
      | Stage.rectangle =>
        if s.pendingPoints.length = 4 then
          match getNearestPointIndex s.pendingPoints pos w h with
          | some idx => { recordStateForUndo s with dragIndex := some idx }
          | none => s
        else if s.pendingPoints.length ≥ 4 then s
        else
          let s1 := recordStateForUndo s
          { s1 with
            pendingPoints := s1.pendingPoints ++ [(xn, yn)]
            redoStack := [] }
      | Stage.point =>
        { s with centerPoint := some (xn, yn) }

/-- `handle_drag_move`: clamp the pointer into `[0, w-1] x [0, h-1]`,
normalize, and overwrite the dragged point.  No history push. -/
def handleDragMove (s : AppState) (pos : ℤ × ℤ) : AppState :=
  if s.stage ≠ Stage.rectangle then s
  else
    match s.dragIndex, s.baseDims with
    | some i, some (w, h) =>
      let x := max 0 (min pos.1 ((w : ℤ) - 1))
      let y := max 0 (min pos.2 ((h : ℤ) - 1))
      { s with pendingPoints := s.pendingPoints.set i (normCoord x w, normCoord y h) }
    | _, _ => s

/-- `handle_drag_release`: clear the active-drag marker. -/
def handleDragRelease (s : AppState) : AppState :=
  if s.dragIndex ≠ none then { s with dragIndex := none } else s

/-- `_fully_reset_annotation_state`: back to the initial
rectangle-selection stage.  Note that the description box is cleared
(`w.clear()` over `(self.desc_input,)`) and that `_drag_index`,
`last_description` and `last_saved_screenshot` are left untouched. -/
def fullyResetState (s : AppState) : AppState :=
  { s with
    stage := Stage.rectangle
    rectanglePoints := []
    pendingPoints := []
    centerPoint := none
    undoStack := []
    redoStack := []
    descInput := "" }

/-- The screenshot filename assigned on the first save:
`screenshot_{timestamp}.png`. -/
def screenshotName (now : ℕ) : String :=
  "screenshot_" ++ toString now ++ ".png"

/-- `handle_save_annotation`: guard on stage/centre/corners, validate the
description, lazily persist the screenshot, copy it into the two
sub-folders, append the two entries, remember the last description and
screenshot, and fully reset the annotation state.  `now` stands for
`int(time.time())`, sampled within one second for the whole handler. -/
def handleSave (s : AppState) (now : ℕ) : AppState × List Effect :=
  if s.stage ≠ Stage.point then (s, [])
  else
    match s.centerPoint with
    | none => (s, [])
    | some c =>
      if s.rectanglePoints.length ≠ 4 then (s, [])
      else
        let desc := pyStrip s.descInput
        if desc = "" then (s, [Effect.warn "Please enter a description."])
        else
          let firstWrite : Option (String × List Effect) :=
            match s.currentScreenshotPath with
            | some f => some (f, [])
            | none =>
              match s.currentImgBytes with
              | none => none
              | some bytes =>
                let f := screenshotName now
                some (f, [Effect.writeImage (IMAGES_DIR ++ "/" ++ f) bytes])
          match firstWrite with
          | none => (s, [Effect.critical "No image data available to save."])
          | some (f, writeEffs) =>
            let srcPath := IMAGES_DIR ++ "/" ++ f
            let rectEntry : RectEntry :=
              { screenshot := f
                timestamp := now
                points := s.rectanglePoints
                description := desc }
            let pointEntry : PointEntry :=
              { screenshot := f
                timestamp := now
                point := c
                description := desc }
            let effs := writeEffs ++
              [Effect.copyImage srcPath (RECTANGLES_DIR ++ "/" ++ f),
               Effect.copyImage srcPath (POINTS_DIR ++ "/" ++ f),
               Effect.appendRect RECT_ANNOTATIONS_PATH rectEntry,
               Effect.appendPoint POINT_ANNOTATIONS_PATH pointEntry]
            let s1 := { s with
              currentScreenshotPath := some f
              lastDescription := desc
              lastSavedScreenshot := some f }
            (fullyResetState s1, effs)

/-- `handle_cancel_annotation`: restore the committed pixmap and fully
reset the annotation state. -/
def handleCancel (s : AppState) : AppState :=
  fullyResetState s

/-- The success path of `handle_take_screenshot`: keep the bytes in
memory for deferred saving, clear the assigned path, install the new
displayed dimensions, and fully reset the annotation state. -/
def handleTakeScreenshot (s : AppState) (bytes : List ℕ) (dims : ℕ × ℕ) :
    AppState :=
  fullyResetState
    { s with
      currentImgBytes := some bytes
      currentScreenshotPath := none
      baseDims := some dims }

/-! ## Event traces -/

/-- The engine input events wired to `MainWindow` handlers. -/
inductive Event where
  | click (pos : ℤ × ℤ)
  | dragMove (pos : ℤ × ℤ)
  | dragRelease
  | undoClick
  | redoClick
  | nextClick
  | backClick
  | cancelClick
  | saveClick (now : ℕ)
  deriving Repr, DecidableEq

/-- One event step (effects of a save are dropped here). -/
def step (s : AppState) : Event → AppState
  | Event.click pos => handleImageClick s pos
  | Event.dragMove pos => handleDragMove s pos
  | Event.dragRelease => handleDragRelease s
  | Event.undoClick => handleUndo s
  | Event.redoClick => handleRedo s
  | Event.nextClick => handleNextStage s
  | Event.backClick => handleBackStage s
  | Event.cancelClick => handleCancel s
  | Event.saveClick now => (handleSave s now).1

/-- Run a trace of events. -/
def run (s : AppState) (es : List Event) : AppState :=
  es.foldl step s

/-- The initial `MainWindow` state (no screenshot loaded). -/
def initState : AppState :=
  { stage := Stage.rectangle
    rectanglePoints := []
    pendingPoints := []
    centerPoint := none
    undoStack := []
    redoStack := []
    dragIndex := none
    descInput := ""
    lastDescription := ""
    lastSavedScreenshot := none
    currentScreenshotPath := none
    currentImgBytes := none
    baseDims := none }

/-! ## Concrete scenario states -/

attribute [local semireducible] Rat.add Rat.mul Rat.inv Rat.sub Rat.ofScientific

/-- Capture on a 1x1 display, then four corner clicks at the origin:
a minimal state with 4 pending points and 4 undo snapshots. -/
def fourClicksState : AppState :=
  run (handleTakeScreenshot initState [0] (1, 1))
    (List.replicate 4 (Event.click (0, 0)))

/-- Capture on a 1x1 display, then two corner clicks at the origin. -/
def twoClicksState : AppState :=
  run (handleTakeScreenshot initState [0] (1, 1))
    (List.replicate 2 (Event.click (0, 0)))

/-- The end-to-end scenario of the spec: capture on a 200x200 display,
click `(10,10)`, `(100,10)`, `(100,100)`, `(10,100)`, then `next`. -/
def endToEndState : AppState :=
  handleNextStage (run (handleTakeScreenshot initState [0] (200, 200))
    [Event.click (10, 10), Event.click (100, 10),
     Event.click (100, 100), Event.click (10, 100)])

/-! ## C3: the `next` transition -/

/-- C3 (amended part): firing `next` from the rectangle stage with
exactly 4 pending corners copies them into `rectangle_points`, sets the
centre to their centroid, clears the pending list and advances the stage
— but it leaves both history stacks exactly as they were (the source
never clears them on this transition). -/
theorem next_stage_transition_spec (s : AppState)
    (h1 : s.stage = Stage.rectangle) (h2 : s.pendingPoints.length = 4) :
    (handleNextStage s).stage = Stage.point ∧
    (handleNextStage s).rectanglePoints = s.pendingPoints ∧
    (handleNextStage s).centerPoint = some (centroid4 s.pendingPoints) ∧
    (handleNextStage s).pendingPoints = [] ∧
    (handleNextStage s).undoStack = s.undoStack ∧
    (handleNextStage s).redoStack = s.redoStack := by
  unfold handleNextStage
  simp [h1, h2]

/-- C3 witness: the spec theorem instantiated on a concrete state with
four pending corners. -/
theorem next_stage_transition_spec_witness :
    (handleNextStage fourClicksState).stage = Stage.point ∧
    (handleNextStage fourClicksState).rectanglePoints = fourClicksState.pendingPoints ∧
    (handleNextStage fourClicksState).centerPoint = some (centroid4 fourClicksState.pendingPoints) ∧
    (handleNextStage fourClicksState).pendingPoints = [] ∧
    (handleNextStage fourClicksState).undoStack = fourClicksState.undoStack ∧
    (handleNextStage fourClicksState).redoStack = fourClicksState.redoStack :=
  next_stage_transition_spec fourClicksState (by decide) (by decide)

/-- C3 counterexample: after four corner clicks the undo stack holds the
four pre-click snapshots, and `next` leaves all four in place — the
claim that both history stacks are empty after the transition is false. -/
theorem next_stage_keeps_history_cex :
    (handleNextStage fourClicksState).stage = Stage.point ∧
    (handleNextStage fourClicksState).undoStack.length = 4 ∧
    (handleNextStage fourClicksState).undoStack ≠ [] := by decide

/-! ## C7: `next` with fewer than 4 corners is a silent no-op -/

/-- C7: invoking `next` in the rectangle stage with fewer than 4 pending
corners returns the state entirely unchanged (the handler returns before
touching anything), and, being a total function, raises nothing. -/
theorem next_stage_silent_noop (s : AppState)
    (h1 : s.stage = Stage.rectangle) (h2 : s.pendingPoints.length < 4) :
    handleNextStage s = s := by
  unfold handleNextStage
  rw [if_pos (Or.inr (Nat.ne_of_lt h2))]

/-- C7 witness: `next` on a concrete state with two pending corners. -/
theorem next_stage_silent_noop_witness :
    handleNextStage twoClicksState = twoClicksState :=
  next_stage_silent_noop twoClicksState (by decide) (by decide)

/-! ## C4: the end-to-end centroid -/

/-- C4 counterexample: in the end-to-end scenario the computed centre is
not `(0.3, 0.3)`. -/
theorem end_to_end_center_not_three_tenths :
    endToEndState.centerPoint ≠ some (3 / 10, 3 / 10) := by decide

/-- C4 (amended): the normalized corners are `(0.05,0.05)`, `(0.5,0.05)`,
`(0.5,0.5)`, `(0.05,0.5)`, whose centroid — and hence the resulting
centre point — is `(0.275, 0.275)` (= `(11/40, 11/40)`), not `(0.3,0.3)`. -/
theorem end_to_end_center_eq :
    endToEndState.stage = Stage.point ∧
    endToEndState.rectanglePoints =
      [(1/20, 1/20), (1/2, 1/20), (1/2, 1/2), (1/20, 1/2)] ∧
    endToEndState.centerPoint = some (11/40, 11/40) := by decide

/-! ## C2: save resets the draft but clears the description -/

/-- A concrete save-ready state: point stage, four finalized corners, a
centre point, description "door", captured bytes not yet persisted. -/
def saveReadyState : AppState :=
  { stage := Stage.point
    rectanglePoints := [(0, 0), (1/2, 0), (1/2, 1/2), (0, 1/2)]
    pendingPoints := []
    centerPoint := some (1/4, 1/4)
    undoStack := []
    redoStack := []
    dragIndex := none
    descInput := "door"
    lastDescription := ""
    lastSavedScreenshot := none
    currentScreenshotPath := none
    currentImgBytes := some [137]
    baseDims := some (200, 200) }

/-- C2 counterexample: a successful save (the rectangle and point entries
are emitted) empties the description box — `_fully_reset_annotation_state`
runs `self.desc_input.clear()` — so the description is not preserved
across the save reset. -/
theorem save_clears_description_cex :
    saveReadyState.descInput = "door" ∧
    Effect.appendRect RECT_ANNOTATIONS_PATH
      { screenshot := screenshotName 100
        timestamp := 100
        points := [(0, 0), (1/2, 0), (1/2, 1/2), (0, 1/2)]
        description := "door" } ∈ (handleSave saveReadyState 100).2 ∧
    (handleSave saveReadyState 100).1.descInput = "" := by decide

/-- C2 (amended): every successful save resets the draft to the
rectangle-selection stage and clears the description along with all
points and history; the description is cleared on save just as on
capture and cancel. -/
theorem save_resets_draft_spec (s : AppState) (now : ℕ)
    (h1 : s.stage = Stage.point) (c : ℚ × ℚ) (h2 : s.centerPoint = some c)
    (h3 : s.rectanglePoints.length = 4) (h4 : pyStrip s.descInput ≠ "")
    (h5 : s.currentScreenshotPath ≠ none ∨ s.currentImgBytes ≠ none) :
    (handleSave s now).1.stage = Stage.rectangle ∧
    (handleSave s now).1.descInput = "" ∧
    (handleSave s now).1.pendingPoints = [] ∧
    (handleSave s now).1.rectanglePoints = [] ∧
    (handleSave s now).1.centerPoint = none ∧
    (handleSave s now).1.undoStack = [] ∧
    (handleSave s now).1.redoStack = [] := by
  unfold handleSave
  rcases hp : s.currentScreenshotPath with _ | f
  · rcases hb : s.currentImgBytes with _ | bytes
    · rw [hp] at h5
      rw [hb] at h5
      simp at h5
    · simp [h1, h2, h3, h4, hp, hb, fullyResetState]
  · simp [h1, h2, h3, h4, hp, fullyResetState]

/-- C2 witness: the amended reset behaviour on the concrete save-ready
state. -/
theorem save_resets_draft_spec_witness :
    (handleSave saveReadyState 100).1.descInput = "" ∧
    (handleSave saveReadyState 100).1.stage = Stage.rectangle :=
  ⟨(save_resets_draft_spec saveReadyState 100 (by decide) (1/4, 1/4)
      (by decide) (by decide) (by decide) (by decide)).2.1,
   (save_resets_draft_spec saveReadyState 100 (by decide) (1/4, 1/4)
      (by decide) (by decide) (by decide) (by decide)).1⟩

/-! ## C9: lazy screenshot persistence -/

/-- C9: screenshot bytes are written only when no filename has been
assigned yet (the first save after a capture); with a filename already
assigned, a save emits no `writeImage` effect, and both emitted records
carry that same filename. -/
theorem screenshot_lazy_persistence (s : AppState) (now : ℕ)
    (h1 : s.stage = Stage.point) (c : ℚ × ℚ) (h2 : s.centerPoint = some c)
    (h3 : s.rectanglePoints.length = 4) (h4 : pyStrip s.descInput ≠ "") :
    (∀ b, s.currentScreenshotPath = none → s.currentImgBytes = some b →
      (handleSave s now).2 =
        [Effect.writeImage (IMAGES_DIR ++ "/" ++ screenshotName now) b,
         Effect.copyImage (IMAGES_DIR ++ "/" ++ screenshotName now)
           (RECTANGLES_DIR ++ "/" ++ screenshotName now),
         Effect.copyImage (IMAGES_DIR ++ "/" ++ screenshotName now)
           (POINTS_DIR ++ "/" ++ screenshotName now),
         Effect.appendRect RECT_ANNOTATIONS_PATH
           { screenshot := screenshotName now, timestamp := now
             points := s.rectanglePoints, description := pyStrip s.descInput },
         Effect.appendPoint POINT_ANNOTATIONS_PATH
           { screenshot := screenshotName now, timestamp := now
             point := c, description := pyStrip s.descInput }] ∧
      (handleSave s now).1.currentScreenshotPath = some (screenshotName now)) ∧
    (∀ f, s.currentScreenshotPath = some f →
      (handleSave s now).2 =
        [Effect.copyImage (IMAGES_DIR ++ "/" ++ f) (RECTANGLES_DIR ++ "/" ++ f),
         Effect.copyImage (IMAGES_DIR ++ "/" ++ f) (POINTS_DIR ++ "/" ++ f),
         Effect.appendRect RECT_ANNOTATIONS_PATH
           { screenshot := f, timestamp := now
             points := s.rectanglePoints, description := pyStrip s.descInput },
         Effect.appendPoint POINT_ANNOTATIONS_PATH
           { screenshot := f, timestamp := now
             point := c, description := pyStrip s.descInput }] ∧
      (handleSave s now).1.currentScreenshotPath = some f) := by
  constructor
  · intro b hp hb
    unfold handleSave
    simp [h1, h2, h3, h4, hp, hb, fullyResetState]
  · intro f hp
    unfold handleSave
    simp [h1, h2, h3, h4, hp, fullyResetState]

/-- A save-ready state whose screenshot filename is already assigned
(i.e. some save already persisted the capture). -/
def secondSaveState : AppState :=
  { saveReadyState with
    descInput := "window"
    currentScreenshotPath := some "screenshot_50.png"
    lastDescription := "door"
    lastSavedScreenshot := some "screenshot_50.png" }

/-- C9 witness: a second save against the already-persisted capture
reuses `screenshot_50.png` and emits no byte write. -/
theorem screenshot_lazy_persistence_witness :
    (handleSave secondSaveState 60).2 =
      [Effect.copyImage (IMAGES_DIR ++ "/" ++ "screenshot_50.png")
         (RECTANGLES_DIR ++ "/" ++ "screenshot_50.png"),
       Effect.copyImage (IMAGES_DIR ++ "/" ++ "screenshot_50.png")
         (POINTS_DIR ++ "/" ++ "screenshot_50.png"),
       Effect.appendRect RECT_ANNOTATIONS_PATH
         { screenshot := "screenshot_50.png", timestamp := 60
           points := secondSaveState.rectanglePoints
           description := pyStrip secondSaveState.descInput },
       Effect.appendPoint POINT_ANNOTATIONS_PATH
         { screenshot := "screenshot_50.png", timestamp := 60
           point := (1/4, 1/4), description := pyStrip secondSaveState.descInput }] :=
  ((screenshot_lazy_persistence secondSaveState 60 (by decide) (1/4, 1/4)
      (by decide) (by decide) (by decide)).2 "screenshot_50.png" (by decide)).1

/-! ## C1: no duplicate-save confirmation exists -/

/-- A save attempt that duplicates the immediately preceding successful
save: same description "door", same still-assigned screenshot filename. -/
def dupSaveState : AppState :=
  { saveReadyState with
    currentScreenshotPath := some "screenshot_50.png"
    lastDescription := "door"
    lastSavedScreenshot := some "screenshot_50.png" }

/-- C1 (code bug): on a duplicate save attempt — the description equals
`last_description` and the screenshot reference equals
`last_saved_screenshot` — the handler persists both records straight
away.  Its effect trace is exactly the two copies and the two appends:
no yes/no decision point of any kind is requested, even though the
source comments that `last_description` / `last_saved_screenshot` are
remembered "to warn about duplicates".  The two fields are never read. -/
theorem duplicate_save_no_confirmation :
    pyStrip dupSaveState.descInput = dupSaveState.lastDescription ∧
    dupSaveState.currentScreenshotPath = dupSaveState.lastSavedScreenshot ∧
    (handleSave dupSaveState 60).2 =
      [Effect.copyImage (IMAGES_DIR ++ "/" ++ "screenshot_50.png")
         (RECTANGLES_DIR ++ "/" ++ "screenshot_50.png"),
       Effect.copyImage (IMAGES_DIR ++ "/" ++ "screenshot_50.png")
         (POINTS_DIR ++ "/" ++ "screenshot_50.png"),
       Effect.appendRect RECT_ANNOTATIONS_PATH
         { screenshot := "screenshot_50.png", timestamp := 60
           points := [(0, 0), (1/2, 0), (1/2, 1/2), (0, 1/2)]
           description := "door" },
       Effect.appendPoint POINT_ANNOTATIONS_PATH
         { screenshot := "screenshot_50.png", timestamp := 60
           point := (1/4, 1/4), description := "door" }] := by decide

/-! ## C5: which mutating actions clear the redo stack -/

/-- A state with four pending corners, an active drag on corner 0, and a
non-empty redo stack: reached by four corner clicks, a press on the
corner (drag start), a release, an undo, and a second press. -/
def dragWithRedoState : AppState :=
  run (handleTakeScreenshot initState [0] (1, 1))
    [Event.click (0, 0), Event.click (0, 0), Event.click (0, 0),
     Event.click (0, 0), Event.click (0, 0), Event.dragRelease,
     Event.undoClick, Event.click (0, 0)]

/-- C5 counterexample: the final press in the trace starts a drag of
corner 0 (`dragIndex = some 0`) yet leaves the redo stack non-empty, and
a subsequent drag-move still leaves it non-empty — starting or moving a
drag is a fresh mutating action that does not clear the redo stack. -/
theorem drag_keeps_redo_cex :
    dragWithRedoState.dragIndex = some 0 ∧
    dragWithRedoState.redoStack = [[(0, 0), (0, 0), (0, 0), (0, 0)]] ∧
    (handleDragMove dragWithRedoState (0, 0)).redoStack ≠ [] := by decide

/-- Pushing an undo snapshot never touches the redo stack. -/
theorem recordStateForUndo_redoStack (s : AppState) :
    (recordStateForUndo s).redoStack = s.redoStack := by
  unfold recordStateForUndo
  split
  · rfl
  · rfl

/-- A drag-move never touches the redo stack. -/
theorem handleDragMove_redoStack (s : AppState) (pos : ℤ × ℤ) :
    (handleDragMove s pos).redoStack = s.redoStack := by
  unfold handleDragMove
  split
  · rfl
  · split
    · rfl
    · rfl

/-- C5 (amended): appending a corner clears the redo stack, but starting
a drag of a corner and drag-moving a corner both leave the redo stack
unchanged — only the append path runs `self.redo_stack.clear()`. -/
theorem redo_clear_policy (s : AppState) (pos : ℤ × ℤ) (w h : ℕ)
    (hd : s.baseDims = some (w, h)) (hs : s.stage = Stage.rectangle)
    (hb : 0 ≤ pos.1 ∧ pos.1 < (w : ℤ) ∧ 0 ≤ pos.2 ∧ pos.2 < (h : ℤ)) :
    (s.pendingPoints.length < 4 → (handleImageClick s pos).redoStack = []) ∧
    (∀ i, s.pendingPoints.length = 4 →
      getNearestPointIndex s.pendingPoints pos w h = some i →
      (handleImageClick s pos).redoStack = s.redoStack) ∧
    (handleDragMove s pos).redoStack = s.redoStack := by
  refine ⟨?_, ?_, handleDragMove_redoStack s pos⟩
  · intro hlen
    simp only [handleImageClick, hd, hs]
    rw [if_neg (not_not_intro hb)]
    rw [if_neg (by omega : ¬(s.pendingPoints.length = 4))]
    rw [if_neg (by omega : ¬(s.pendingPoints.length ≥ 4))]
  · intro i hlen hhit
    simp only [handleImageClick, hd, hs]
    rw [if_neg (not_not_intro hb), if_pos hlen, hhit]
    exact recordStateForUndo_redoStack s

/-- C5 witness: the policy instantiated on a concrete rectangle-stage
state — a click on fresh ground with 2 pending corners clears redo, and
a drag-move leaves redo as it was. -/
theorem redo_clear_policy_witness :
    (handleImageClick twoClicksState (0, 0)).redoStack = [] ∧
    (handleDragMove twoClicksState (0, 0)).redoStack = twoClicksState.redoStack :=
  ⟨(redo_clear_policy twoClicksState (0, 0) 1 1 (by decide) (by decide)
      (by decide)).1 (by decide),
   (redo_clear_policy twoClicksState (0, 0) 1 1 (by decide) (by decide)
      (by decide)).2.2⟩

/-! ## C6: the depth-20 cap on the history stacks -/

/-- C6 (amended): `_record_state_for_undo` appends the current point
list and, when the depth exceeds 20, evicts the oldest (bottom) entry,
so an undo stack at or under depth 20 stays at or under depth 20 on this
path; a stack of exactly 20 loses its bottom entry and gains the new
snapshot on top.  (The uncapped appends in `handle_undo`/`handle_redo`
are what break the global bound — see the counterexample.) -/
theorem record_undo_fifo_cap (s : AppState) (h1 : s.stage = Stage.rectangle) :
    (s.undoStack.length ≤ 20 → (recordStateForUndo s).undoStack.length ≤ 20) ∧
    (s.undoStack.length = 20 →
      (recordStateForUndo s).undoStack = s.undoStack.drop 1 ++ [s.pendingPoints]) ∧
    (s.undoStack.length < 20 →
      (recordStateForUndo s).undoStack = s.undoStack ++ [s.pendingPoints]) := by
  unfold recordStateForUndo
  rw [if_neg (by rw [h1]; simp)]
  dsimp only
  refine ⟨?_, ?_, ?_⟩
  · intro hle
    split
    · rename_i hgt
      rw [List.length_drop]
      simp only [List.length_append, List.length_singleton]
      omega
    · rename_i hng
      simp only [List.length_append, List.length_singleton] at hng ⊢
      omega
  · intro h20
    rw [if_pos (by simp only [List.length_append, List.length_singleton, h20]; omega)]
    rw [List.drop_append_of_le_length (by omega)]
  · intro hlt
    rw [if_neg (by simp only [List.length_append, List.length_singleton]; omega)]

/-- C6 witness: the cap behaviour on the concrete four-click state
(undo depth 4 < 20: a push simply appends). -/
theorem record_undo_fifo_cap_witness :
    (recordStateForUndo fourClicksState).undoStack =
      fourClicksState.undoStack ++ [fourClicksState.pendingPoints] :=
  (record_undo_fifo_cap fourClicksState (by decide)).2.2 (by decide)

/-- The trace driving the redo stack past the cap: four corner clicks,
then 21 rounds of (press on corner 0, release, undo).  Each round pushes
one snapshot on the undo stack via the drag-start path and then moves
one snapshot to the redo stack, which `handle_undo` grows without any
cap. -/
def redoOverflowTrace : List Event :=
  [Event.click (0, 0), Event.click (0, 0), Event.click (0, 0), Event.click (0, 0)] ++
  (List.replicate 21 [Event.click (0, 0), Event.dragRelease, Event.undoClick]).flatten

set_option maxRecDepth 40000 in
/-- C6 counterexample: after the overflow trace the redo stack holds 21
snapshots — the claim that neither history stack ever exceeds depth 20
under any sequence of operations is false. -/
theorem redo_stack_exceeds_cap_cex :
    (run (handleTakeScreenshot initState [0] (1, 1)) redoOverflowTrace).redoStack.length = 21 ∧
    ¬(run (handleTakeScreenshot initState [0] (1, 1)) redoOverflowTrace).redoStack.length ≤ 20 := by
  decide

/-! ## C8: normalize/denormalize round trip -/

/-- One-axis round trip: for displayed dimensions up to `10^6`, rounding
to 6 decimals perturbs the coordinate by at most half a pixel, so the
truncating denormalization lands within one pixel. -/
theorem coord_roundtrip (w x : ℕ) (hw : 0 < w) (hwb : w ≤ 1000000)
    (hx : x < w) :
    (denormCoord (normCoord (x : ℤ) w) w - (x : ℤ)).natAbs ≤ 1 := by
  have hw0 : (0 : ℚ) < (w : ℚ) := by exact_mod_cast hw
  have hq0 : (0 : ℚ) ≤ (x : ℚ) / (w : ℚ) := by positivity
  have hr0 : 0 ≤ normCoord (x : ℤ) w := by
    unfold normCoord
    rw [Int.cast_natCast]
    exact round6_nonneg hq0
  have habs := abs_sub_round6 ((x : ℚ) / (w : ℚ))
  rw [abs_le] at habs
  have hd : denormCoord (normCoord (x : ℤ) w) w = ⌊normCoord (x : ℤ) w * (w : ℚ)⌋ := by
    unfold denormCoord
    exact pyInt_of_nonneg (mul_nonneg hr0 (le_of_lt hw0))
  have hcN : normCoord (x : ℤ) w = round6 ((x : ℚ) / (w : ℚ)) := by
    unfold normCoord
    rw [Int.cast_natCast]
  have hwq : (w : ℚ) ≤ 1000000 := by exact_mod_cast hwb
  have hup : normCoord (x : ℤ) w * (w : ℚ) ≤ (x : ℚ) + 1 / 2 := by
    rw [hcN]
    have h1 : round6 ((x : ℚ) / (w : ℚ)) ≤ (x : ℚ) / (w : ℚ) + 1 / 2000000 := by
      linarith [habs.2]
    have h2 : round6 ((x : ℚ) / (w : ℚ)) * (w : ℚ) ≤
        ((x : ℚ) / (w : ℚ) + 1 / 2000000) * (w : ℚ) :=
      mul_le_mul_of_nonneg_right h1 (le_of_lt hw0)
    have h3 : ((x : ℚ) / (w : ℚ) + 1 / 2000000) * (w : ℚ)
        = (x : ℚ) + (w : ℚ) / 2000000 := by
      field_simp
      ring
    rw [h3] at h2
    linarith
  have hlo : (x : ℚ) - 1 / 2 ≤ normCoord (x : ℤ) w * (w : ℚ) := by
    rw [hcN]
    have h1 : (x : ℚ) / (w : ℚ) - 1 / 2000000 ≤ round6 ((x : ℚ) / (w : ℚ)) := by
      linarith [habs.1]
    have h2 : ((x : ℚ) / (w : ℚ) - 1 / 2000000) * (w : ℚ) ≤
        round6 ((x : ℚ) / (w : ℚ)) * (w : ℚ) :=
      mul_le_mul_of_nonneg_right h1 (le_of_lt hw0)
    have h3 : ((x : ℚ) / (w : ℚ) - 1 / 2000000) * (w : ℚ)
        = (x : ℚ) - (w : ℚ) / 2000000 := by
      field_simp
      ring
    rw [h3] at h2
    linarith
  have hfup : ⌊normCoord (x : ℤ) w * (w : ℚ)⌋ ≤ (x : ℤ) := by
    have : ⌊normCoord (x : ℤ) w * (w : ℚ)⌋ ≤ ⌊(x : ℚ) + 1 / 2⌋ :=
      Int.floor_le_floor hup
    have hxhalf : ⌊(x : ℚ) + 1 / 2⌋ = (x : ℤ) := by
      rw [show ((x : ℚ) + 1 / 2) = ((x : ℤ) : ℚ) + 1 / 2 by push_cast; ring]
      rw [Int.floor_int_add]
      norm_num
    omega
  have hflo : (x : ℤ) - 1 ≤ ⌊normCoord (x : ℤ) w * (w : ℚ)⌋ := by
    have : ⌊(x : ℚ) - 1 / 2⌋ ≤ ⌊normCoord (x : ℤ) w * (w : ℚ)⌋ :=
      Int.floor_le_floor hlo
    have hxhalf : ⌊(x : ℚ) - 1 / 2⌋ = (x : ℤ) - 1 := by
      rw [show ((x : ℚ) - 1 / 2) = ((x : ℤ) : ℚ) + (-1 / 2 : ℚ) by push_cast; ring]
      rw [Int.floor_int_add]
      norm_num
      omega
    omega
  rw [hd]
  omega

/-- C8 (amended): for every displayed size up to `10^6 x 10^6` pixels
and every pixel point inside `[0,w) x [0,h)`, denormalizing the
normalized point recovers the original within one pixel on each axis.
(For larger dimensions the 6-decimal rounding step can move the point by
several pixels — see the counterexample.) -/
theorem normalize_denormalize_roundtrip (w h x y : ℕ)
    (hw : 0 < w) (hh : 0 < h) (hwb : w ≤ 1000000) (hhb : h ≤ 1000000)
    (hx : x < w) (hy : y < h) :
    ((denormalizePt (normalizePt ((x : ℤ), (y : ℤ)) w h) w h).1 - (x : ℤ)).natAbs ≤ 1 ∧
    ((denormalizePt (normalizePt ((x : ℤ), (y : ℤ)) w h) w h).2 - (y : ℤ)).natAbs ≤ 1 := by
  unfold normalizePt denormalizePt
  exact ⟨coord_roundtrip w x hw hwb hx, coord_roundtrip h y hh hhb hy⟩

/-- C8 witness: the round trip at pixel `(10, 10)` on a `200x200`
display recovers the pixel exactly. -/
theorem normalize_denormalize_roundtrip_witness :
    ((denormalizePt (normalizePt ((10 : ℤ), (10 : ℤ)) 200 200) 200 200).1 - 10).natAbs ≤ 1 ∧
    ((denormalizePt (normalizePt ((10 : ℤ), (10 : ℤ)) 200 200) 200 200).2 - 10).natAbs ≤ 1 :=
  normalize_denormalize_roundtrip 200 200 10 10 (by decide) (by decide)
    (by decide) (by decide) (by decide) (by decide)

/-- C8 counterexample: on a `10^7 x 10^7` display the pixel `(6, 6)`
normalizes to `(10^-6, 10^-6)` and denormalizes to `(10, 10)`, four
pixels away — the claim without a bound on the displayed dimensions is
false. -/
theorem normalize_denormalize_cex :
    denormalizePt (normalizePt ((6 : ℤ), (6 : ℤ)) 10000000 10000000)
      10000000 10000000 = (10, 10) ∧
    ¬((denormalizePt (normalizePt ((6 : ℤ), (6 : ℤ)) 10000000 10000000)
        10000000 10000000).1 - 6).natAbs ≤ 1 := by decide

/-! ## C10: bounds on a drag-moved corner -/

/-- The upper bound of the drag range is strictly below `1.0` whenever
the displayed dimension is at most `10^6`. -/
theorem round6_last_pixel_lt_one (w : ℕ) (hw : 0 < w) (hwb : w ≤ 1000000) :
    round6 (((w : ℚ) - 1) / (w : ℚ)) < 1 := by
  have hw0 : (0 : ℚ) < (w : ℚ) := by exact_mod_cast hw
  have hwq : (w : ℚ) ≤ 1000000 := by exact_mod_cast hwb
  set v : ℚ := (((w : ℚ) - 1) / (w : ℚ)) * 1000000 with hv
  have hvval : v = 1000000 - 1000000 / (w : ℚ) := by
    rw [hv]
    field_simp
    ring
  have hone : (1 : ℚ) ≤ 1000000 / (w : ℚ) := by
    rw [le_div_iff₀ hw0]
    linarith
  have hvle : v ≤ 999999 := by
    rw [hvval]
    linarith
  have habs := abs_sub_roundHalfEven v
  rw [abs_le] at habs
  have hlt : (roundHalfEven v : ℚ) < 1000000 := by
    linarith [habs.1]
  have hint : roundHalfEven v < 1000000 := by exact_mod_cast hlt
  unfold round6
  rw [div_lt_one (by norm_num)]
  calc (roundHalfEven ((((w : ℚ) - 1) / (w : ℚ)) * 1000000) : ℚ)
      = (roundHalfEven v : ℚ) := by rw [hv]
    _ < 1000000 := by exact_mod_cast hint

/-- Bounds for one clamped-then-normalized drag coordinate. -/
theorem clamped_normCoord_bounds (p : ℤ) (w : ℕ) (hw : 0 < w) :
    0 ≤ normCoord (max 0 (min p ((w : ℤ) - 1))) w ∧
    normCoord (max 0 (min p ((w : ℤ) - 1))) w ≤ round6 (((w : ℚ) - 1) / (w : ℚ)) ∧
    (w ≤ 1000000 → normCoord (max 0 (min p ((w : ℤ) - 1))) w < 1) := by
  have hw0 : (0 : ℚ) < (w : ℚ) := by exact_mod_cast hw
  set c : ℤ := max 0 (min p ((w : ℤ) - 1)) with hc
  have hc0 : 0 ≤ c := le_max_left 0 _
  have hcw : c ≤ (w : ℤ) - 1 := by
    rw [hc]
    have h1 : min p ((w : ℤ) - 1) ≤ (w : ℤ) - 1 := min_le_right _ _
    have h2 : (0 : ℤ) ≤ (w : ℤ) - 1 := by
      have : (1 : ℤ) ≤ (w : ℤ) := by exact_mod_cast hw
      omega
    omega
  have hcq : (c : ℚ) ≤ (w : ℚ) - 1 := by
    exact_mod_cast hcw
  have hc0q : (0 : ℚ) ≤ (c : ℚ) := by exact_mod_cast hc0
  have hdivle : (c : ℚ) / (w : ℚ) ≤ ((w : ℚ) - 1) / (w : ℚ) :=
    (div_le_div_iff_of_pos_right hw0).mpr hcq
  refine ⟨?_, ?_, ?_⟩
  · unfold normCoord
    exact round6_nonneg (by positivity)
  · unfold normCoord
    exact round6_mono hdivle
  · intro hwb
    have hlt := round6_last_pixel_lt_one w hw hwb
    unfold normCoord
    calc round6 ((c : ℚ) / (w : ℚ)) ≤ round6 (((w : ℚ) - 1) / (w : ℚ)) :=
          round6_mono hdivle
      _ < 1 := hlt

/-- C10 (amended): after any drag-move with an active drag on index `i`,
the dragged corner equals the clamped, normalized pointer position and
its coordinates lie in `[0, round6((w-1)/w)] x [0, round6((h-1)/h)]`;
for displayed dimensions up to `10^6` these upper bounds are strictly
below `1.0` (for larger dimensions the bound itself rounds to exactly
`1.0` — see the counterexample). -/
theorem drag_move_bounds (s : AppState) (pos : ℤ × ℤ) (i w h : ℕ)
    (h1 : s.stage = Stage.rectangle) (h2 : s.dragIndex = some i)
    (h3 : s.baseDims = some (w, h)) (hw : 0 < w) (hh : 0 < h)
    (hi : i < s.pendingPoints.length) :
    ∀ pt, ((handleDragMove s pos).pendingPoints)[i]? = some pt →
      0 ≤ pt.1 ∧ pt.1 ≤ round6 (((w : ℚ) - 1) / (w : ℚ)) ∧
      0 ≤ pt.2 ∧ pt.2 ≤ round6 (((h : ℚ) - 1) / (h : ℚ)) ∧
      (w ≤ 1000000 → pt.1 < 1) ∧ (h ≤ 1000000 → pt.2 < 1) := by
  intro pt hpt
  have hx := clamped_normCoord_bounds pos.1 w hw
  have hy := clamped_normCoord_bounds pos.2 h hh
  have hred : (handleDragMove s pos).pendingPoints
      = s.pendingPoints.set i
          (normCoord (max 0 (min pos.1 ((w : ℤ) - 1))) w,
           normCoord (max 0 (min pos.2 ((h : ℤ) - 1))) h) := by
    unfold handleDragMove
    rw [if_neg (by rw [h1]; simp), h2, h3]
  rw [hred] at hpt
  rw [List.getElem?_set_self hi] at hpt
  rw [Option.some_inj] at hpt
  subst hpt
  exact ⟨hx.1, hx.2.1, hy.1, hy.2.1, fun hb => hx.2.2 hb, fun hb => hy.2.2 hb⟩

/-- A concrete state dragging corner 0 on a `200x200` display. -/
def dragState : AppState :=
  { initState with
    stage := Stage.rectangle
    pendingPoints := [(0, 0), (0, 0), (0, 0), (0, 0)]
    dragIndex := some 0
    baseDims := some (200, 200) }

/-- C10 witness: dragging corner 0 to `(50, 500)` on the `200x200`
display yields `(0.25, 0.995)`, inside the stated bounds and strictly
below `1.0`. -/
theorem drag_move_bounds_witness :
    0 ≤ (1/4 : ℚ) ∧ (1/4 : ℚ) ≤ round6 ((200 - 1 : ℚ) / 200) ∧
    0 ≤ (199/200 : ℚ) ∧ (199/200 : ℚ) ≤ round6 ((200 - 1 : ℚ) / 200) ∧
    (200 ≤ 1000000 → (1/4 : ℚ) < 1) ∧ (200 ≤ 1000000 → (199/200 : ℚ) < 1) :=
  drag_move_bounds dragState (50, 500) 0 200 200 (by decide) (by decide)
    (by decide) (by decide) (by decide) (by decide)
    (1/4, 199/200) (by decide)

/-- A drag on a `4000000 x 4000000` display. -/
def hugeDragState : AppState :=
  { initState with
    stage := Stage.rectangle
    pendingPoints := [(0, 0), (0, 0), (0, 0), (0, 0)]
    dragIndex := some 0
    baseDims := some (4000000, 4000000) }

/-- C10 counterexample: on a `4000000`-pixel-wide display, dragging to
the last pixel stores the coordinate `1.0` exactly — `(w-1)/w`
multiplied by `10^6` is `999999.75`, which rounds up to `10^6` — so a
drag can set a coordinate to exactly `1.0`, and the claimed upper bound
`round6((w-1)/w)` itself equals `1.0` there. -/
theorem drag_move_exact_one_cex :
    ((handleDragMove hugeDragState (3999999, 3999999)).pendingPoints)[0]? =
      some (1, 1) ∧
    round6 ((4000000 - 1 : ℚ) / 4000000) = 1 := by decide

end UiCollector
